import Mathlib

/-!
Verification development for the PlasmoHQ/storage key-value storage layer.

The TypeScript sources are shallowly embedded: JavaScript objects used as
string-keyed dictionaries become association lists (`List (String × α)`),
JS `Set`s of callback identities become duplicate-free `List Nat` (a callback
is identified by an opaque numeric identity, mirroring the reference
identity that `Set.add` / `Set.delete` use), promise rejections and thrown
exceptions become `Except String`, and `undefined` / absent values become
`Option`.  External collaborators (the JSON codec, web-crypto primitives,
base64 transport) are passed in as function parameters, exactly as the spec
treats them as external collaborators.
-/

set_option autoImplicit false

namespace PlasmoStorage

universe u

/-- Find the value stored under `key` in a JS-object-like association list. -/
def aFind? {α : Type u} : List (String × α) → String → Option α
  | [], _ => none
  | (k, v) :: rest, key => if k = key then some v else aFind? rest key

/-- Overwrite-or-append insertion, mirroring `obj[key] = value` /
`Map.set` / `localStorage.setItem`: an existing binding is updated in
place (object key order is preserved), otherwise the binding is appended. -/
def aInsert {α : Type u} : List (String × α) → String → α → List (String × α)
  | [], key, v => [(key, v)]
  | (k, w) :: rest, key, v =>
    if k = key then (key, v) :: rest else (k, w) :: aInsert rest key v

/-- Deletion, mirroring `delete obj[key]` / `Map.delete` / `removeItem`. -/
def aErase {α : Type u} : List (String × α) → String → List (String × α)
  | [], _ => []
  | (k, v) :: rest, key => if k = key then aErase rest key else (k, v) :: aErase rest key

@[simp] theorem aFind?_nil {α : Type u} (key : String) : aFind? ([] : List (String × α)) key = none := rfl

theorem aFind?_aInsert_self {α : Type u} (m : List (String × α)) (key : String) (v : α) :
    aFind? (aInsert m key v) key = some v := by
  induction m with
  | nil => simp [aInsert, aFind?]
  | cons kv rest ih =>
    obtain ⟨k, w⟩ := kv
    by_cases h : k = key
    · simp [aInsert, aFind?, h]
    · simp [aInsert, aFind?, h, ih]

theorem aFind?_aInsert_ne {α : Type u} (m : List (String × α)) (key key' : String) (v : α)
    (h : key' ≠ key) : aFind? (aInsert m key v) key' = aFind? m key' := by
  induction m with
  | nil => simp [aInsert, aFind?, Ne.symm h]
  | cons kv rest ih =>
    obtain ⟨k, w⟩ := kv
    by_cases hk : k = key
    · subst hk
      simp [aInsert, aFind?, Ne.symm h]
    · simp [aInsert, aFind?, hk, ih]

theorem aFind?_aErase_ne {α : Type u} (m : List (String × α)) (key key' : String)
    (h : key' ≠ key) : aFind? (aErase m key) key' = aFind? m key' := by
  induction m with
  | nil => simp [aErase]
  | cons kv rest ih =>
    obtain ⟨k, w⟩ := kv
    by_cases hk : k = key
    · subst hk
      simp [aErase, aFind?, Ne.symm h, ih]
    · simp [aErase, aFind?, hk, ih]

/-- Updating a binding with the value it already holds leaves the list
unchanged (the JS code mutates the very object stored in the map, so a
no-op mutation is literally the identity on the instance state). -/
theorem aInsert_of_aFind? {α : Type u} (m : List (String × α)) (key : String) (v : α)
    (h : aFind? m key = some v) : aInsert m key v = m := by
  induction m with
  | nil => simp [aFind?] at h
  | cons kv rest ih =>
    obtain ⟨k, w⟩ := kv
    by_cases hk : k = key
    · subst hk
      simp [aFind?] at h
      simp [aInsert, h]
    · simp [aFind?, hk] at h
      simp [aInsert, hk, ih h]

/-! ### The change-notification multiplexer (src/src/index.ts, `BaseStorage`)

`#watchMap` maps a namespaced key to the pair of its callback `Set` and the
platform listener installed for it.  Callbacks and platform listeners are
modelled by their identities (`Nat`); the platform `onChanged` listener list
is the multiset of currently registered listener identities.  `installCount`
counts the calls made to `onChanged.addListener`. -/

structure WatchEntry where
  callbackSet : List Nat
  listener : Nat
  deriving Repr, DecidableEq

structure WatchState where
  watchMap : List (String × WatchEntry)
  platformListeners : List Nat
  nextListenerId : Nat
  installCount : Nat
  deriving Repr, DecidableEq

/-- The empty watch state of a freshly constructed store instance. -/
def WatchState.init : WatchState := ⟨[], [], 0, 0⟩

/-- `Set.add`: appends the callback identity unless it is already present. -/
def setAdd (s : List Nat) (cb : Nat) : List Nat := if cb ∈ s then s else s ++ [cb]

/-- One loop iteration of `BaseStorage.#addListener`
(src/src/index.ts lines 274-316) for the pair `(cbKey, callback)`:
grow (or create) the callback set for the namespaced key; when
`callbackSet.size > 1` stop there, otherwise construct a fresh platform
listener, register it with `onChanged.addListener`, and store it in the
watch map (replacing whatever listener the map held for that key). -/
def addListenerStep (ns : String) (ws : WatchState) (cbKey : String) (cb : Nat) : WatchState :=
  let nsKey := ns ++ cbKey
  match aFind? ws.watchMap nsKey with
  | some e =>
    let callbackSet := setAdd e.callbackSet cb
    if 1 < callbackSet.length then
      { ws with watchMap := aInsert ws.watchMap nsKey ⟨callbackSet, e.listener⟩ }
    else
      { watchMap := aInsert ws.watchMap nsKey ⟨callbackSet, ws.nextListenerId⟩
        platformListeners := ws.platformListeners ++ [ws.nextListenerId]
        nextListenerId := ws.nextListenerId + 1
        installCount := ws.installCount + 1 }
  | none =>
    { watchMap := aInsert ws.watchMap nsKey ⟨[cb], ws.nextListenerId⟩
      platformListeners := ws.platformListeners ++ [ws.nextListenerId]
      nextListenerId := ws.nextListenerId + 1
      installCount := ws.installCount + 1 }

/-- One loop iteration of `BaseStorage.#removeListener`
(src/src/index.ts lines 326-341): missing keys are skipped; otherwise the
callback is deleted from the set by identity, and when the set becomes
empty the map entry is dropped and the stored platform listener is passed
to `onChanged.removeListener`. -/
def removeListenerStep (ns : String) (ws : WatchState) (cbKey : String) (cb : Nat) : WatchState :=
  let nsKey := ns ++ cbKey
  match aFind? ws.watchMap nsKey with
  | none => ws
  | some e =>
    let callbackSet := e.callbackSet.erase cb
    if callbackSet = [] then
      { ws with
        watchMap := aErase ws.watchMap nsKey
        platformListeners := ws.platformListeners.erase e.listener }
    else
      { ws with watchMap := aInsert ws.watchMap nsKey ⟨callbackSet, e.listener⟩ }

/-- `BaseStorage.watch` (src/src/index.ts lines 266-272): a no-op returning
`false` when watching is unsupported (no extension API); otherwise runs
`#addListener` over the callback map entries. -/
def watch (hasExtensionApi : Bool) (ns : String) (ws : WatchState)
    (callbackMap : List (String × Nat)) : Bool × WatchState :=
  if hasExtensionApi then
    (true, callbackMap.foldl (fun w p => addListenerStep ns w p.1 p.2) ws)
  else
    (false, ws)

/-- `BaseStorage.unwatch` (src/src/index.ts lines 318-324). -/
def unwatch (hasExtensionApi : Bool) (ns : String) (ws : WatchState)
    (callbackMap : List (String × Nat)) : Bool × WatchState :=
  if hasExtensionApi then
    (true, callbackMap.foldl (fun w p => removeListenerStep ns w p.1 p.2) ws)
  else
    (false, ws)

/-! ### The dual-backend key/value store (src/src/index.ts)

`StorageState` is the data part of a `BaseStorage` instance.  The primary
client (`chrome.storage[area]`) and secondary client (`window.localStorage`)
are `Option`s because the constructor only assigns them when the
corresponding API is available; dereferencing an unassigned client is a
JS `TypeError`, modelled as `Except.error`.  A client is modelled by the
map it stores. -/

abbrev StrMap := List (String × String)

structure StorageState where
  area : String
  allCopied : Bool
  copiedKeySet : List String
  keyNamespace : String
  hasWebApi : Bool
  hasExtensionApi : Bool
  primaryClient : Option StrMap
  secondaryClient : Option StrMap
  deriving Repr, DecidableEq

/-- The `BaseStorage` constructor (src/src/index.ts lines 108-139):
`#secondaryClient` is assigned only when the web API exists and the copy
configuration is non-trivial; `#primaryClient` only when the extension
storage API exists.  `webData` / `extData` are the current contents of
those backends. -/
def mkStorage (area : String) (allCopied : Bool) (copiedKeyList : List String)
    (hasWebApi hasExtensionApi : Bool) (webData extData : StrMap) : StorageState :=
  { area := area
    allCopied := allCopied
    copiedKeySet := copiedKeyList
    keyNamespace := ""
    hasWebApi := hasWebApi
    hasExtensionApi := hasExtensionApi
    secondaryClient :=
      if hasWebApi && (allCopied || !copiedKeyList.isEmpty) then some webData else none
    primaryClient := if hasExtensionApi then some extData else none }

/-- `isCopied` (line 75): the key is mirrored to the web client. -/
def isCopied (s : StorageState) (key : String) : Bool :=
  s.hasWebApi && (s.allCopied || s.copiedKeySet.contains key)

def getNamespacedKey (s : StorageState) (key : String) : String := s.keyNamespace ++ key

def getUnnamespacedKey (s : StorageState) (nsKey : String) : String :=
  nsKey.drop s.keyNamespace.length

def isValidKey (s : StorageState) (nsKey : String) : Bool :=
  nsKey.startsWith s.keyNamespace

/-- Message of the `TypeError` raised by dereferencing `undefined`. -/
def undefinedError : String := "TypeError: undefined has no properties"

/-- Dereference a possibly-unassigned JS field. -/
def jsField {α : Type u} (x : Option α) : Except String α :=
  match x with
  | some a => Except.ok a
  | none => Except.error undefinedError

/-- `BaseStorage.rawGetMany` (lines 204-215): with the extension API the
primary client is queried for all keys; otherwise the copied keys are read
from the secondary client (optional chaining, so an absent secondary
client yields `undefined` values rather than an error).  An entry whose
value is `none` stands for a key that is absent / `undefined` in the
returned record. -/
def rawGetMany (s : StorageState) (keys : List String) :
    Except String (List (String × Option String)) :=
  if s.hasExtensionApi then do
    let p ← jsField s.primaryClient
    Except.ok (keys.map fun k => (k, aFind? p k))
  else
    Except.ok ((keys.filter (isCopied s)).map
      fun k => (k, s.secondaryClient.bind (fun m => aFind? m k)))

/-- `BaseStorage.rawGet` (lines 197-202): `(await rawGetMany [key])[key]`. -/
def rawGet (s : StorageState) (key : String) : Except String (Option String) := do
  let results ← rawGetMany s [key]
  Except.ok ((aFind? results key).bind id)

/-- `BaseStorage.rawSetMany` (lines 221-233): copied keys are written to the
secondary client when it exists, then the whole batch goes to the primary
client when the extension API is available; resolves with `null`. -/
def rawSetMany (s : StorageState) (items : StrMap) : Except String StorageState :=
  let s1 :=
    match s.secondaryClient with
    | some m =>
      let m1 := (items.filter fun p => isCopied s p.1).foldl (fun acc p => aInsert acc p.1 p.2) m
      { s with secondaryClient := some m1 }
    | none => s
  if s.hasExtensionApi then do
    let p ← jsField s1.primaryClient
    Except.ok { s1 with primaryClient := some (items.foldl (fun acc q => aInsert acc q.1 q.2) p) }
  else
    Except.ok s1

/-- `BaseStorage.rawSet` (lines 217-219). -/
def rawSet (s : StorageState) (key value : String) : Except String StorageState :=
  rawSetMany s [(key, value)]

/-- `BaseStorage.clear` (lines 238-244): optionally clears the secondary
client (optional chaining), then unconditionally calls
`this.#primaryClient.clear()` — which is a `TypeError` when the primary
client was never assigned. -/
def clear (s : StorageState) (includeCopies : Bool) : Except String StorageState :=
  let s1 :=
    if includeCopies then
      match s.secondaryClient with
      | some _ => { s with secondaryClient := some [] }
      | none => s
    else s
  match s1.primaryClient with
  | none => Except.error undefinedError
  | some _ => Except.ok { s1 with primaryClient := some [] }

/-- `BaseStorage.rawRemoveMany` (lines 250-258). -/
def rawRemoveMany (s : StorageState) (keys : List String) : Except String StorageState :=
  let s1 :=
    match s.secondaryClient with
    | some m =>
      { s with secondaryClient := some ((keys.filter (isCopied s)).foldl aErase m) }
    | none => s
  if s.hasExtensionApi then do
    let p ← jsField s1.primaryClient
    Except.ok { s1 with primaryClient := some (keys.foldl aErase p) }
  else
    Except.ok s1

/-- `BaseStorage.rawRemove` (lines 246-248). -/
def rawRemove (s : StorageState) (key : String) : Except String StorageState :=
  rawRemoveMany s [key]

/-- `BaseStorage.rawGetAll` (line 145): `this.#primaryClient?.get()` —
optional chaining, `undefined` when there is no primary client. -/
def rawGetAll (s : StorageState) : Option StrMap := s.primaryClient

/-- `BaseStorage.copy` (src/src/index.ts lines 165-195), verbatim control
flow: the early return fires when a named key is not in the copied key
set, or `allCopied` is false, or the extension API is missing; otherwise
the data map is fetched (the non-`allCopied` branch of the ternary is
kept although the guard above makes it unreachable), each fetched entry
is written to the secondary client, and the result records whether any
written value differed from the value previously stored there. -/
def copy (s : StorageState) (key? : Option String) : Except String (Bool × StorageState) :=
  let keyNotCopied :=
    match key? with
    | none => false
    | some k => !s.copiedKeySet.contains k
  if keyNotCopied || !s.allCopied || !s.hasExtensionApi then
    Except.ok (false, s)
  else do
    let dataMap? ←
      if s.allCopied then
        Except.ok (rawGetAll s)
      else do
        let p ← jsField s.primaryClient
        let wanted :=
          (match key? with
           | none => s.copiedKeySet
           | some k => [k]).map (getNamespacedKey s)
        Except.ok (some (wanted.filterMap fun nk => (aFind? p nk).map (fun v => (nk, v))))
    match dataMap? with
    | none => Except.ok (false, s)
    | some dataMap =>
      let changed := dataMap.any fun kv =>
        some kv.2 ≠ s.secondaryClient.bind (fun m => aFind? m kv.1)
      let s1 :=
        match s.secondaryClient with
        | some m =>
          let m1 := dataMap.foldl (fun acc kv => aInsert acc kv.1 kv.2) m
          { s with secondaryClient := some m1 }
        | none => s
      Except.ok (changed, s1)

/-- `Storage.parseValue` (lines 461-471): `undefined` stays `undefined`;
otherwise the deserializer runs inside a try/catch whose failure is
swallowed into `undefined`.  The pluggable deserializer (default
`JSON.parse`, an external collaborator) is a parameter that returns
`none` when it would throw. -/
def parseValue {V : Type} (deserializer : String → Option V) (rawValue : Option String) :
    Option V :=
  match rawValue with
  | some str => deserializer str
  | none => none

/-- `Storage.get` (lines 415-419). -/
def get {V : Type} (deserializer : String → Option V) (s : StorageState) (key : String) :
    Except String (Option V) := do
  let rawValue ← rawGet s (getNamespacedKey s key)
  Except.ok (parseValue deserializer rawValue)

/-- `Storage.getMany` (lines 421-431). -/
def getMany {V : Type} (deserializer : String → Option V) (s : StorageState)
    (keys : List String) : Except String (List (String × Option V)) := do
  let rawValues ← rawGetMany s (keys.map (getNamespacedKey s))
  Except.ok (rawValues.map fun p => (getUnnamespacedKey s p.1, parseValue deserializer p.2))

/-- `Storage.set` (lines 433-437): serialize with the pluggable serializer
(default `JSON.stringify`) and store under the namespaced key. -/
def set {V : Type} (serializer : V → String) (s : StorageState) (key : String) (v : V) :
    Except String StorageState :=
  rawSet s (getNamespacedKey s key) (serializer v)

/-- `Storage.setMany` (lines 439-445). -/
def setMany {V : Type} (serializer : V → String) (s : StorageState)
    (items : List (String × V)) : Except String StorageState :=
  rawSetMany s (items.map fun p => (getNamespacedKey s p.1, serializer p.2))

/-- `Storage.remove` (lines 447-450). -/
def remove (s : StorageState) (key : String) : Except String StorageState :=
  rawRemove s (getNamespacedKey s key)

/-- `Storage.removeMany` (lines 452-455). -/
def removeMany (s : StorageState) (keys : List String) : Except String StorageState :=
  rawRemoveMany s (keys.map (getNamespacedKey s))

/-! ### The secure overlay (src/src/secure.ts)

The web-crypto primitives (`PBKDF2` key derivation, `AES-GCM`
encrypt/decrypt), the base64 transport (`btoa`/`atob`) and the JSON codec
are external collaborators; they enter the model as the function fields of
`CryptoModel` / `SecureCfg`.  Byte buffers (`Uint8Array`) are `List Nat`. -/

structure CryptoModel where
  deriveKey : Nat → List Nat → Nat
  encryptData : Nat → List Nat → List Nat → List Nat
  decryptData : Nat → List Nat → List Nat → Option (List Nat)

structure SecureCfg (V : Type) where
  crypto : CryptoModel
  b64encode : List Nat → String
  b64decode : String → List Nat
  stringifyBytes : V → List Nat
  parseJsonBytes : List Nat → Option V

/-- A `SecureStorage` instance: the inherited `BaseStorage` state plus the
password-derived key handle and the configured sizes.  `passwordKey` is
`none` until `setPassword` completes. -/
structure SecureState where
  base : StorageState
  passwordKey : Option Nat
  iterations : Nat
  saltSize : Nat
  ivSize : Nat
  deriving Repr, DecidableEq

def DEFAULT_ITERATIONS : Nat := 470000
def DEFAULT_SALT_SIZE : Nat := 16
def DEFAULT_IV_SIZE : Nat := 32

def passwordError : String := "Password not set, please first call setPassword."

def rangeError : String := "RangeError: offset is out of bounds"

def operationError : String := "OperationError: decryption failed"

/-- The private `passwordKey` getter (src/src/secure.ts lines 42-48):
throws when `setPassword` has not been called. -/
def passwordKeyOf (s : SecureState) : Except String Nat :=
  match s.passwordKey with
  | none => Except.error passwordError
  | some k => Except.ok k

/-- `SecureStorage.setPassword` (lines 50-70): record the sizes and retain
an imported key handle derived from the password text (`importKey` stands
for `crypto.subtle.importKey`, an external collaborator). -/
def setPassword (importKey : String → Nat) (s : SecureState) (password : String)
    (iterations saltSize ivSize : Nat) : SecureState :=
  { s with
    iterations := iterations
    saltSize := saltSize
    ivSize := ivSize
    passwordKey := some (importKey password) }

/-- `Uint8Array.prototype.set(src, offset)`: throws a `RangeError` when the
source does not fit at the offset, otherwise overwrites in place. -/
def typedArraySet (target src : List Nat) (offset : Nat) : Option (List Nat) :=
  if target.length < offset + src.length then none
  else some (target.take offset ++ src ++ target.drop (offset + src.length))

/-- The envelope assembly inside `SecureStorage.encrypt`
(src/src/secure.ts lines 114-120): allocate a zeroed buffer of
`prefSize + ciphertext` bytes (`prefSize = saltSize + ivSize`), then write
the salt at offset 0, the initialization vector at offset `saltSize`, and
the ciphertext at offset `prefSize + iv.byteLength` — the offsets exactly
as the source writes them. -/
def encryptBox (saltSize ivSize : Nat) (salt iv encryptedDataBuffer : List Nat) :
    Option (List Nat) :=
  let prefSize := saltSize + ivSize
  let boxBuffer := List.replicate (prefSize + encryptedDataBuffer.length) 0
  (typedArraySet boxBuffer salt 0).bind fun b1 =>
    (typedArraySet b1 iv saltSize).bind fun b2 =>
      typedArraySet b2 encryptedDataBuffer (prefSize + iv.length)

/-- `SecureStorage.encrypt` (lines 97-124): resolve the password key (throws
when unset), derive the per-call cipher key from the freshly generated
`salt`, encrypt `rawData` under the fresh `iv`, assemble the envelope and
base64-encode it.  `salt` and `iv` are the `crypto.getRandomValues` outputs
(lengths `saltSize` / `ivSize` by construction at the call site). -/
def secureEncrypt {V : Type} (cfg : SecureCfg V) (s : SecureState) (rawData : List Nat)
    (salt iv : List Nat) : Except String String := do
  let passKey ← passwordKeyOf s
  let aesKey := cfg.crypto.deriveKey passKey salt
  let encryptedDataBuffer := cfg.crypto.encryptData aesKey iv rawData
  match encryptBox s.saltSize s.ivSize salt iv encryptedDataBuffer with
  | none => Except.error rangeError
  | some boxBuffer => Except.ok (cfg.b64encode boxBuffer)

/-- The envelope slicing inside `SecureStorage.decrypt` (lines 81-83):
salt is the first `saltSize` bytes, the initialization vector the next
`ivSize` bytes, the ciphertext the rest. -/
def decryptSlices (saltSize ivSize : Nat) (boxBuffer : List Nat) :
    List Nat × List Nat × List Nat :=
  (boxBuffer.take saltSize,
   (boxBuffer.drop saltSize).take ivSize,
   boxBuffer.drop (saltSize + ivSize))

/-- `SecureStorage.decrypt` (lines 77-95): resolve the password key (throws
when unset), base64-decode, slice with the instance-configured sizes,
derive the cipher key and decrypt; an authentication failure of the
AEAD cipher propagates.  The result is the decrypted byte buffer (the
final `TextDecoder.decode` to a JS string is left at the byte level). -/
def secureDecrypt {V : Type} (cfg : SecureCfg V) (s : SecureState) (boxBase64 : String) :
    Except String (List Nat) := do
  let passKey ← passwordKeyOf s
  let boxBuffer := cfg.b64decode boxBase64
  let slices := decryptSlices s.saltSize s.ivSize boxBuffer
  let aesKey := cfg.crypto.deriveKey passKey slices.1
  match cfg.crypto.decryptData aesKey slices.2.1 slices.2.2 with
  | none => Except.error operationError
  | some decryptedDataBuffer => Except.ok decryptedDataBuffer

/-- `SecureStorage.parseValue` (lines 137-148): `undefined` stays
`undefined`; otherwise decrypt then `JSON.parse`, with any failure of
either swallowed into `undefined` by the try/catch. -/
def secureParseValue {V : Type} (cfg : SecureCfg V) (s : SecureState)
    (boxBase64 : Option String) : Option V :=
  match boxBase64 with
  | none => none
  | some b =>
    match secureDecrypt cfg s b with
    | Except.error _ => none
    | Except.ok rawBytes => cfg.parseJsonBytes rawBytes

/-- `SecureStorage.get` (lines 126-129): note that the backend is read at
the RAW key — `rawGet(key)`, not `rawGet(getNamespacedKey(key))`. -/
def secureGet {V : Type} (cfg : SecureCfg V) (s : SecureState) (key : String) :
    Except String (Option V) := do
  let boxBase64 ← rawGet s.base key
  Except.ok (secureParseValue cfg s boxBase64)

/-- `SecureStorage.set` (lines 131-135): `JSON.stringify`, encrypt, and
store the envelope at the RAW key — `rawSet(key, boxBase64)`, not the
namespaced key. -/
def secureSet {V : Type} (cfg : SecureCfg V) (s : SecureState) (key : String) (rawValue : V)
    (salt iv : List Nat) : Except String SecureState := do
  let value := cfg.stringifyBytes rawValue
  let boxBase64 ← secureEncrypt cfg s value salt iv
  let base ← rawSet s.base key boxBase64
  Except.ok { s with base := base }

/-- `SecureStorage`'s `remove` is the inherited `Storage.remove`
(src/src/index.ts lines 447-450), which removes the NAMESPACED key. -/
def secureRemove (s : SecureState) (key : String) : Except String SecureState := do
  let base ← remove s.base key
  Except.ok { s with base := base }

/-- `SecureStorage`'s `removeMany` is the inherited `Storage.removeMany`
(src/src/index.ts lines 452-455), again on namespaced keys. -/
def secureRemoveMany (s : SecureState) (keys : List String) : Except String SecureState := do
  let base ← removeMany s.base keys
  Except.ok { s with base := base }

/-! ### Revision part_006 (`BaseStorage` of src/unnamed/part_006)

This revision owns the `unlimited` configuration flag and the
`getQuotaWarning` call inside `rawSet`.  `getQuotaWarning` itself lives in
`./get-quota-warning`, a module not present under src/, so it is passed in
as an abstract parameter; claim C1 only concerns whether it is invoked. -/

namespace P6

structure BaseStorage where
  area : String
  shouldCheckQuota : Bool
  allCopied : Bool
  copiedKeySet : List String
  hasWebApi : Bool
  hasExtensionApi : Bool
  primaryData : StrMap
  secondaryData : StrMap
  deriving Repr, DecidableEq

/-- The constructor of part_006 (lines 93-113).  Line 101 is
`this.#shouldCheckQuota = unlimited` — the flag is stored as given. -/
def mk (area : String) (unlimited allCopied : Bool) (copiedKeyList : List String)
    (hasWebApi hasExtensionApi : Bool) (webData extData : StrMap) : BaseStorage :=
  { area := area
    shouldCheckQuota := unlimited
    allCopied := allCopied
    copiedKeySet := copiedKeyList
    hasWebApi := hasWebApi
    hasExtensionApi := hasExtensionApi
    primaryData := extData
    secondaryData := webData }

def isCopied (s : BaseStorage) (key : String) : Bool :=
  s.hasWebApi && (s.allCopied || s.copiedKeySet.contains key)

structure RawSetOutcome where
  state : BaseStorage
  /-- the resolved value: `some warning` with the extension API, `none`
  (that is, `null`) without it -/
  warning : Option String
  /-- whether `getQuotaWarning` was invoked during this call -/
  quotaCheckPerformed : Bool
  deriving Repr, DecidableEq

/-- `BaseStorage.rawSet` of part_006 (lines 167-185): mirror to the
secondary client for copied keys; with the extension API, compute
`warning = this.#shouldCheckQuota ? await getQuotaWarning(this, key, value) : ""`
(the source comment above that line reads: when user has unlimitedStorage
permission, skip used space check) and then write to the primary client. -/
def rawSet (getQuotaWarning : String → String → String) (s : BaseStorage)
    (key value : String) : RawSetOutcome :=
  let s1 :=
    if isCopied s key then { s with secondaryData := aInsert s.secondaryData key value }
    else s
  if s.hasExtensionApi then
    let warning := if s.shouldCheckQuota then getQuotaWarning key value else ""
    { state := { s1 with primaryData := aInsert s1.primaryData key value }
      warning := some warning
      quotaCheckPerformed := s.shouldCheckQuota }
  else
    { state := s1, warning := none, quotaCheckPerformed := false }

end P6

/-! ### Revision part_008 (`Storage` of src/unnamed/part_008)

This revision carries the inline quota computation cited by claim C2
(the same code appears in part_007 lines 80-123). -/

namespace P8

/-- A JS string as its UTF-16 code units. -/
abbrev Str16 := List Nat

/-- Helper for `byteLengthCharCode`: the extra bytes beyond the code-unit
count, scanning the units from the END of the string exactly as the JS
loop does (the input here is the reversed unit list); a trailing
surrogate (0xdc00-0xdfff) makes the loop skip the unit before it. -/
def extraBytes : List Nat → Nat
  | [] => 0
  | [code] =>
    if 0x7f < code && code ≤ 0x7ff then 1
    else if 0x7ff < code && code ≤ 0xffff then 2
    else 0
  | code :: next :: rest =>
    let e :=
      if 0x7f < code && code ≤ 0x7ff then 1
      else if 0x7ff < code && code ≤ 0xffff then 2
      else 0
    if 0xdc00 ≤ code && code ≤ 0xdfff then e + extraBytes rest
    else e + extraBytes (next :: rest)

/-- `byteLengthCharCode` (part_008 lines 243-253): the UTF-8 byte length
of a JS string computed from its UTF-16 code units. -/
def byteLengthCharCode (str : Str16) : Nat := str.length + extraBytes str.reverse

structure Storage where
  secretSet : List String
  area : String
  hasWindow : Bool
  hasExtensionAPI : Bool
  localData : List (String × Str16)
  extData : List (String × Str16)
  /-- `chrome.storage[area].QUOTA_BYTES` -/
  quotaBytes : Nat
  deriving Repr, DecidableEq

inductive SetResult where
  | resolved (warning : Option String)
  | rejected (message : String)
  deriving Repr, DecidableEq

/-- The warning text built at part_008 lines 116-118; the percentage
suffix (float formatting of `usedPercentage * 100`) is abstracted. -/
def quotaMessage (newByteInUse quota : Int) : String :=
  "Storage quota is almost full. " ++ toString newByteInUse ++ "/" ++ toString quota

/-- `const quota = client.QUOTA_BYTES || 1` (part_008 line 103). -/
def quota (s : Storage) : Int := if s.quotaBytes = 0 then 1 else (s.quotaBytes : Int)

/-- `const newByteInUse = byteInUse + newValueByteSize - oldValueByteSize`
(part_008 line 111). -/
def newByteInUse (value : Str16) (byteInUse oldValueByteSize : Nat) : Int :=
  (byteInUse : Int) + (byteLengthCharCode value : Int) - (oldValueByteSize : Int)

/-- The mirror write into localStorage for non-secret keys
(part_008 lines 95-98), which happens BEFORE the quota check;
`#localClient` is assigned only when a `window` exists. -/
def mirrorLocal (s : Storage) (key : String) (value : Str16) : Storage :=
  if !s.secretSet.contains key && s.hasWindow then
    { s with localData := aInsert s.localData key value }
  else s

/-- `Storage.set` of part_008 (lines 89-132).  `stringify` stands for
`JSON.stringify`; `byteInUse` and `oldValueByteSize` are the two
`getBytesInUse` responses from the platform.  The float comparisons
`usedPercentage > 0.8` and `usedPercentage > 1.0` are modelled exactly on
the underlying integers (`5 * newByteInUse > 4 * quota`, resp.
`newByteInUse > quota`). -/
def set {V : Type} (stringify : V → Str16) (s : Storage) (key : String) (rawValue : V)
    (byteInUse oldValueByteSize : Nat) : SetResult × Storage :=
  let value := stringify rawValue
  let s1 := mirrorLocal s key value
  if s.hasExtensionAPI then
    if s.area ≠ "managed" then
      let n := newByteInUse value byteInUse oldValueByteSize
      let warning : Option String :=
        if 4 * quota s < 5 * n then some (quotaMessage n (quota s)) else none
      if quota s < n then
        (SetResult.rejected "ABORTED - New value would exceed storage quota.", s1)
      else
        (SetResult.resolved warning, { s1 with extData := aInsert s1.extData key value })
    else
      (SetResult.resolved none, { s1 with extData := aInsert s1.extData key value })
  else
    (SetResult.resolved none, s1)

theorem mirrorLocal_extData (s : Storage) (key : String) (value : Str16) :
    (mirrorLocal s key value).extData = s.extData := by
  unfold mirrorLocal
  split <;> rfl

end P8

/-! ## Claim theorems -/

/-- Claim C1 (code evaluated at the failing inputs): in revision part_006
the constructor stores the `unlimited` flag directly into
`#shouldCheckQuota` (line 101), and `rawSet` invokes `getQuotaWarning`
exactly when `#shouldCheckQuota` is true (lines 174-177).  Hence with the
extension API available a store constructed with `unlimited = true`
PERFORMS the quota check on `rawSet`, and a store constructed with the
default `unlimited = false` performs NO quota check — the exact opposite
of the claim and of the source comment above the call site. -/
theorem c1_unlimited_flag_inverted :
    ((P6.rawSet (fun _ _ => "quota warning") (P6.mk "sync" true false [] true true [] [])
        "k" "v").quotaCheckPerformed = true)
    ∧ ((P6.rawSet (fun _ _ => "quota warning") (P6.mk "sync" false false [] true true [] [])
        "k" "v").quotaCheckPerformed = false) := by
  constructor <;> rfl

/-- Claim C2, counterexample to the claim as stated: on a non-"managed"
area with the extension API available, a projected usage of 101% rejects
the write — but the call has already written the value into the secondary
(localStorage) backend, because the mirror write at part_008 lines 95-98
precedes the quota check.  The store starts with empty `localData`;
after the rejected call the entry is there, so "no backend is modified by
the call" is false. -/
theorem c2_reject_still_writes_secondary :
    ((P8.set (fun (u : P8.Str16) => u) ⟨[], "sync", true, true, [], [], 100⟩
        "k" [97] 100 0).1
      = P8.SetResult.rejected "ABORTED - New value would exceed storage quota.")
    ∧ ((P8.set (fun (u : P8.Str16) => u) ⟨[], "sync", true, true, [], [], 100⟩
        "k" [97] 100 0).2.localData = [("k", [97])]) := by
  constructor <;> rfl

theorem quota_pos (s : P8.Storage) : 0 < P8.quota s := by
  unfold P8.quota
  split
  · omega
  · omega

/-- Claim C2 (amended): for every `set(key, value)` on a non-"managed"
area with the extension API available, with projected bytes
`newByteInUse = byteInUse - oldValueByteSize + newValueByteSize`:
a projected/quota of at most 0.8 (in particular exactly 0.8) returns no
warning and writes to the primary backend; strictly between 0.8 and 1.0
(inclusive) the call writes and resolves with a warning string; above 1.0
the call rejects with an error and the PRIMARY backend is left
unmodified (the secondary local mirror has already been written, see the
counterexample). -/
theorem c2_quota_thresholds {V : Type} (stringify : V → P8.Str16) (s : P8.Storage)
    (key : String) (rawValue : V) (byteInUse oldValueByteSize : Nat)
    (hext : s.hasExtensionAPI = true) (harea : s.area ≠ "managed") :
    ((5 * P8.newByteInUse (stringify rawValue) byteInUse oldValueByteSize ≤ 4 * P8.quota s →
      (P8.set stringify s key rawValue byteInUse oldValueByteSize).1
        = P8.SetResult.resolved none
      ∧ aFind? (P8.set stringify s key rawValue byteInUse oldValueByteSize).2.extData key
        = some (stringify rawValue)))
    ∧ ((4 * P8.quota s < 5 * P8.newByteInUse (stringify rawValue) byteInUse oldValueByteSize →
        P8.newByteInUse (stringify rawValue) byteInUse oldValueByteSize ≤ P8.quota s →
      (∃ w, (P8.set stringify s key rawValue byteInUse oldValueByteSize).1
        = P8.SetResult.resolved (some w))
      ∧ aFind? (P8.set stringify s key rawValue byteInUse oldValueByteSize).2.extData key
        = some (stringify rawValue)))
    ∧ ((P8.quota s < P8.newByteInUse (stringify rawValue) byteInUse oldValueByteSize →
      (P8.set stringify s key rawValue byteInUse oldValueByteSize).1
        = P8.SetResult.rejected "ABORTED - New value would exceed storage quota."
      ∧ (P8.set stringify s key rawValue byteInUse oldValueByteSize).2.extData
        = s.extData)) := by
  have hq : 0 < P8.quota s := quota_pos s
  refine ⟨fun h1 => ?_, fun h1 h2 => ?_, fun h1 => ?_⟩
  · have hw : ¬ (4 * P8.quota s < 5 * P8.newByteInUse (stringify rawValue) byteInUse
        oldValueByteSize) := by omega
    have hr : ¬ (P8.quota s < P8.newByteInUse (stringify rawValue) byteInUse
        oldValueByteSize) := by omega
    simp [P8.set, hext, harea, hw, hr, P8.mirrorLocal_extData, aFind?_aInsert_self]
  · have hr : ¬ (P8.quota s < P8.newByteInUse (stringify rawValue) byteInUse
        oldValueByteSize) := by omega
    refine ⟨⟨P8.quotaMessage (P8.newByteInUse (stringify rawValue) byteInUse oldValueByteSize)
        (P8.quota s), ?_⟩, ?_⟩
    · simp [P8.set, hext, harea, h1, hr]
    · simp [P8.set, hext, harea, h1, hr, P8.mirrorLocal_extData, aFind?_aInsert_self]
  · constructor
    · simp [P8.set, hext, harea, h1]
    · simp [P8.set, hext, harea, h1, P8.mirrorLocal_extData]

/-- Claim C2, witness: on a store with quota 100, starting usage 80 with 1
byte already at the key, writing a 1-byte value projects exactly 80% and
yields no warning; starting usage 81 projects 81% and yields a warning;
starting usage 100 with nothing at the key projects 101% and rejects. -/
theorem c2_quota_thresholds_witness :
    ((P8.set (fun (u : P8.Str16) => u) ⟨[], "sync", true, true, [], [], 100⟩
        "k" [97] 80 1).1 = P8.SetResult.resolved none)
    ∧ (∃ w, (P8.set (fun (u : P8.Str16) => u) ⟨[], "sync", true, true, [], [], 100⟩
        "k" [97] 81 1).1 = P8.SetResult.resolved (some w))
    ∧ ((P8.set (fun (u : P8.Str16) => u) ⟨[], "sync", true, true, [], [], 100⟩
        "k" [97] 100 0).1
      = P8.SetResult.rejected "ABORTED - New value would exceed storage quota.") := by
  refine ⟨((c2_quota_thresholds (fun (u : P8.Str16) => u) ⟨[], "sync", true, true, [], [], 100⟩
        "k" [97] 80 1 rfl (by decide)).1 (by decide)).1,
      ((c2_quota_thresholds (fun (u : P8.Str16) => u) ⟨[], "sync", true, true, [], [], 100⟩
        "k" [97] 81 1 rfl (by decide)).2.1 (by decide) (by decide)).1,
      ((c2_quota_thresholds (fun (u : P8.Str16) => u) ⟨[], "sync", true, true, [], [], 100⟩
        "k" [97] 100 0 rfl (by decide)).2.2 (by decide)).1⟩

/-- Claim C3 (code evaluated at the failing input): two `watch` calls for
the same key with the IDENTICAL callback install TWO platform listeners.
On the second call `Set.add` leaves the singleton callback set unchanged,
so `callbackSet.size > 1` fails and `#addListener` registers a second
`onChanged` listener, replacing the stored one; the first listener is
orphaned but stays registered with the platform.  The claim that every
sequence of watch calls installs exactly one platform listener per key,
with later watches only growing the callback set, is therefore false. -/
theorem c3_duplicate_watch_installs_twice :
    ((watch true "" (watch true "" WatchState.init [("k", 7)]).2 [("k", 7)]).2.installCount = 2)
    ∧ ((watch true "" (watch true "" WatchState.init [("k", 7)]).2
        [("k", 7)]).2.platformListeners = [0, 1])
    ∧ (aFind? (watch true "" (watch true "" WatchState.init [("k", 7)]).2
        [("k", 7)]).2.watchMap "k" = some ⟨[7], 1⟩) := by
  refine ⟨rfl, rfl, ?_⟩
  decide

/-- Claim C4: `unwatch` removes a callback from a key's callback set only
by identity (callback identities are the `Nat`s of the model, mirroring
the reference identity used by `Set.delete`): unwatching a key with no
registration, or passing a callback identity that is not in the set (for
example a structurally equal but distinct function instance), leaves the
entire watch state — platform listener included — unchanged; when a
matching unwatch empties the callback set, the map entry is dropped and
that key's platform listener is removed from the platform. -/
theorem c4_unwatch_identity (ns k : String) (ws : WatchState) (cb cb' : Nat) (e : WatchEntry) :
    ((aFind? ws.watchMap (ns ++ k) = none → unwatch true ns ws [(k, cb)] = (true, ws)))
    ∧ ((aFind? ws.watchMap (ns ++ k) = some e → cb' ∉ e.callbackSet → e.callbackSet ≠ [] →
        unwatch true ns ws [(k, cb')] = (true, ws)))
    ∧ ((aFind? ws.watchMap (ns ++ k) = some e → e.callbackSet = [cb] →
        unwatch true ns ws [(k, cb)] =
          (true, { ws with
            watchMap := aErase ws.watchMap (ns ++ k)
            platformListeners := ws.platformListeners.erase e.listener }))) := by
  refine ⟨fun h => ?_, fun h hmem hne => ?_, fun h hsingle => ?_⟩
  · simp [unwatch, removeListenerStep, h]
  · have herase : e.callbackSet.erase cb' = e.callbackSet := List.erase_of_not_mem hmem
    have hupd : aInsert ws.watchMap (ns ++ k) e = ws.watchMap :=
      aInsert_of_aFind? ws.watchMap (ns ++ k) e h
    have heta : (⟨e.callbackSet, e.listener⟩ : WatchEntry) = e := rfl
    show unwatch true ns ws [(k, cb')] = (true, ws)
    simp only [unwatch, if_true, List.foldl_cons, List.foldl_nil, removeListenerStep, h]
    rw [herase, if_neg hne, heta, hupd]
  · simp [unwatch, removeListenerStep, h, hsingle]

/-- Claim C4, witness: on a store watching key "k" with callback identity
1 (one installed listener, identity 0): unwatching an unregistered key is
a no-op; unwatching "k" with the different callback identity 2 is a
no-op that keeps the platform listener; unwatching "k" with the identical
callback identity 1 empties the set and removes the platform listener. -/
theorem c4_unwatch_identity_witness :
    (unwatch true "" WatchState.init [("x", 5)] = (true, WatchState.init))
    ∧ (unwatch true "" ⟨[("k", ⟨[1], 0⟩)], [0], 1, 1⟩ [("k", 2)]
        = (true, ⟨[("k", ⟨[1], 0⟩)], [0], 1, 1⟩))
    ∧ (unwatch true "" ⟨[("k", ⟨[1], 0⟩)], [0], 1, 1⟩ [("k", 1)] = (true, ⟨[], [], 1, 1⟩)) := by
  refine ⟨(c4_unwatch_identity "" "x" WatchState.init 5 5 ⟨[], 0⟩).1 (by decide),
      (c4_unwatch_identity "" "k" ⟨[("k", ⟨[1], 0⟩)], [0], 1, 1⟩ 2 2 ⟨[1], 0⟩).2.1
        (by decide) (by decide) (by decide), ?_⟩
  have h := (c4_unwatch_identity "" "k" ⟨[("k", ⟨[1], 0⟩)], [0], 1, 1⟩ 1 1 ⟨[1], 0⟩).2.2
    (by decide) rfl
  simpa using h

theorem typedArraySet_length (target src : List Nat) (offset : Nat) (r : List Nat)
    (h : typedArraySet target src offset = some r) : r.length = target.length := by
  unfold typedArraySet at h
  split at h
  · exact absurd h (by simp)
  · rename_i hfit
    cases h
    simp only [List.length_append, List.length_take, List.length_drop]
    omega

/-- With a positive configured IV size, the envelope assembly of `encrypt`
ALWAYS fails: the buffer holds `saltSize + ivSize + ct` bytes but the
ciphertext is written at offset `saltSize + ivSize + iv.byteLength`. -/
theorem encryptBox_ivSize_pos_none (saltSize ivSize : Nat) (salt iv ct : List Nat)
    (hiv : iv.length = ivSize) (hpos : 0 < ivSize) :
    encryptBox saltSize ivSize salt iv ct = none := by
  simp only [encryptBox]
  cases h1 : typedArraySet (List.replicate (saltSize + ivSize + ct.length) 0) salt 0 with
  | none => simp
  | some b1 =>
    cases h2 : typedArraySet b1 iv saltSize with
    | none => simp [h2]
    | some b2 =>
      have l1 := typedArraySet_length _ _ _ _ h1
      have l2 := typedArraySet_length _ _ _ _ h2
      simp only [List.length_replicate] at l1
      have hfin : typedArraySet b2 ct (saltSize + ivSize + iv.length) = none := by
        unfold typedArraySet
        split
        · rfl
        · rename_i hc
          exfalso
          omega
      simp [h1, h2, hfin]

/-- The slicing performed by `decrypt` recovers the components of an
envelope that is laid out as salt ‖ iv ‖ ciphertext — the layout the
buffer allocation in `encrypt` (and the claim) intend. -/
theorem decryptSlices_append (salt iv ct : List Nat) :
    decryptSlices salt.length iv.length ((salt ++ iv) ++ ct) = (salt, iv, ct) := by
  have hlen : (salt ++ iv).length = salt.length + iv.length := List.length_append salt iv
  unfold decryptSlices
  rw [List.append_assoc]
  rw [List.take_left, List.drop_left, List.take_left]
  rw [← List.append_assoc, ← hlen, List.drop_left]

/-- Claim C5 (code evaluated at the failing inputs): whenever the password
is set and the configured IV size is positive (the default is 32), every
`encrypt` call throws a `RangeError`, because line 120 of
src/src/secure.ts writes the ciphertext at offset
`prefixSize + iv.byteLength` = `saltSize + 2 * ivSize` into a buffer of
only `saltSize + ivSize + ciphertext` bytes.  In particular
`decrypt(encrypt(x))` never returns x: `encrypt` never completes.  The
buffer allocation, `decrypt`'s slicing (see `decryptSlices_append`), and
the repository's own round-trip test expect the ciphertext at offset
`saltSize + ivSize`. -/
theorem c5_encrypt_range_error {V : Type} (cfg : SecureCfg V) (s : SecureState) (pk : Nat)
    (x salt iv : List Nat) (hpwd : s.passwordKey = some pk)
    (_hsalt : salt.length = s.saltSize) (hiv : iv.length = s.ivSize)
    (hpos : 0 < s.ivSize) :
    secureEncrypt cfg s x salt iv = Except.error rangeError := by
  simp [secureEncrypt, passwordKeyOf, hpwd, Bind.bind, Except.bind,
    encryptBox_ivSize_pos_none s.saltSize s.ivSize salt iv _ hiv hpos]

/-- A concrete instantiation of the external collaborators, used by the
witnesses: the cipher is the identity on the data, base64 is rendered by
`toString`, values are `Nat`s serialized as singleton byte lists. -/
def testCfg : SecureCfg Nat :=
  { crypto :=
      { deriveKey := fun _ _ => 0
        encryptData := fun _ _ d => d
        decryptData := fun _ _ d => some d }
    b64encode := fun bytes => toString bytes
    b64decode := fun _ => []
    stringifyBytes := fun n => [n]
    parseJsonBytes := fun l => l.head? }

/-- A `SecureStorage` with the password set and the default sizes. -/
def c5State : SecureState :=
  { base := mkStorage "sync" false [] false true [] []
    passwordKey := some 1
    iterations := DEFAULT_ITERATIONS
    saltSize := DEFAULT_SALT_SIZE
    ivSize := DEFAULT_IV_SIZE }

theorem c5_encrypt_range_error_witness :
    secureEncrypt testCfg c5State [104, 105] (List.replicate 16 0) (List.replicate 32 0)
      = Except.error rangeError :=
  c5_encrypt_range_error testCfg c5State 1 [104, 105] (List.replicate 16 0)
    (List.replicate 32 0) rfl (by decide) (by decide) (by decide)

/-- A `SecureStorage` on which `setPassword` has NOT been called, whose
backend already holds an envelope under the raw key "k". -/
def c6State : SecureState :=
  { base := mkStorage "sync" false [] false true [] [("k", "envelope")]
    passwordKey := none
    iterations := 0
    saltSize := DEFAULT_SALT_SIZE
    ivSize := DEFAULT_IV_SIZE }

/-- Claim C6, counterexample to the claim as stated: with no password set,
`get` does NOT fail — `parseValue`'s try/catch swallows the "password not
set" error thrown by `decrypt` and the call succeeds with `undefined`,
even though an envelope is stored under the key. -/
theorem c6_get_returns_undefined_without_password :
    secureGet testCfg c6State "k" = Except.ok none := by
  rfl

/-- Claim C6 (amended): on a `SecureStorage` on which `setPassword` has
not been called, `encrypt`, `decrypt` and `set` fail with the hard
"password not set" error; `get` does not fail — it swallows that error
inside `parseValue` and resolves with `undefined`. -/
theorem c6_password_gate {V : Type} (cfg : SecureCfg V) (s : SecureState)
    (hpwd : s.passwordKey = none) :
    ((∀ x salt iv, secureEncrypt cfg s x salt iv = Except.error passwordError))
    ∧ ((∀ b, secureDecrypt cfg s b = Except.error passwordError))
    ∧ ((∀ (key : String) (v : V) (salt iv : List Nat),
        secureSet cfg s key v salt iv = Except.error passwordError))
    ∧ ((∀ (key : String) (r : Option String), rawGet s.base key = Except.ok r →
        secureGet cfg s key = Except.ok none)) := by
  refine ⟨fun x salt iv => ?_, fun b => ?_, fun key v salt iv => ?_, fun key r hr => ?_⟩
  · simp [secureEncrypt, passwordKeyOf, hpwd, Bind.bind, Except.bind]
  · simp [secureDecrypt, passwordKeyOf, hpwd, Bind.bind, Except.bind]
  · simp [secureSet, secureEncrypt, passwordKeyOf, hpwd, Bind.bind, Except.bind]
  · cases r with
    | none => simp [secureGet, hr, secureParseValue, Bind.bind, Except.bind]
    | some b =>
      simp [secureGet, hr, secureParseValue, secureDecrypt, passwordKeyOf, hpwd,
        Bind.bind, Except.bind]

theorem c6_password_gate_witness :
    (secureEncrypt testCfg c6State [1] [] [] = Except.error passwordError)
    ∧ (secureDecrypt testCfg c6State "abc" = Except.error passwordError)
    ∧ (secureSet testCfg c6State "k" 5 [] [] = Except.error passwordError)
    ∧ (secureGet testCfg c6State "missing" = Except.ok none) := by
  obtain ⟨h1, h2, h3, h4⟩ := c6_password_gate testCfg c6State rfl
  exact ⟨h1 [1] [] [], h2 "abc", h3 "k" 5 [] [], h4 "missing" none rfl⟩

/-- Claim C7, counterexample to the claim as stated: with the primary
(extension) backend unavailable, `clear` does NOT complete — it throws a
`TypeError`, because `this.#primaryClient.clear()` (src/src/index.ts
line 243) dereferences the never-assigned `#primaryClient` without any
guard or optional chaining. -/
theorem c7_clear_throws_without_extension :
    clear (mkStorage "sync" false [] false false [] []) false
      = Except.error undefinedError := rfl

/-- Claim C7 (amended): when the primary (extension) backend is
unavailable, `get`, `getMany`, `set`, `setMany`, `remove`, `removeMany`,
`copy`, `watch` and `unwatch` all complete without throwing, falling back
to the secondary backend or acting as no-ops — but `clear` throws (see
the counterexample). -/
theorem c7_no_extension_fallback {V : Type} (deserializer : String → Option V)
    (serializer : V → String) (s : StorageState) (hext : s.hasExtensionApi = false)
    (ns : String) (ws : WatchState) (key : String) (keys : List String) (v : V)
    (items : List (String × V)) (key? : Option String)
    (callbackMap : List (String × Nat)) :
    ((get deserializer s key).isOk = true)
    ∧ ((getMany deserializer s keys).isOk = true)
    ∧ ((set serializer s key v).isOk = true)
    ∧ ((setMany serializer s items).isOk = true)
    ∧ ((remove s key).isOk = true)
    ∧ ((removeMany s keys).isOk = true)
    ∧ (copy s key? = Except.ok (false, s))
    ∧ (watch s.hasExtensionApi ns ws callbackMap = (false, ws))
    ∧ (unwatch s.hasExtensionApi ns ws callbackMap = (false, ws)) := by
  have hsetm : ∀ its, (rawSetMany s its).isOk = true := by
    intro its
    cases hsec : s.secondaryClient <;> simp [rawSetMany, hext, hsec, Except.isOk, Except.toBool]
  have hremm : ∀ ks, (rawRemoveMany s ks).isOk = true := by
    intro ks
    cases hsec : s.secondaryClient <;> simp [rawRemoveMany, hext, hsec, Except.isOk, Except.toBool]
  refine ⟨?_, ?_, ?_, ?_, ?_, ?_, ?_, ?_, ?_⟩
  · simp [get, rawGet, rawGetMany, hext, Except.isOk, Except.toBool, Bind.bind, Except.bind]
  · simp [getMany, rawGetMany, hext, Except.isOk, Except.toBool, Bind.bind, Except.bind]
  · exact hsetm _
  · exact hsetm _
  · exact hremm _
  · exact hremm _
  · simp [copy, hext]
  · simp [watch, hext]
  · simp [unwatch, hext]

theorem c7_no_extension_fallback_witness :
    ((get (fun _ => (none : Option Nat)) (mkStorage "sync" false [] false false [] [])
        "k").isOk = true)
    ∧ ((getMany (fun _ => (none : Option Nat)) (mkStorage "sync" false [] false false [] [])
        ["a"]).isOk = true)
    ∧ ((set (fun (_ : Nat) => "") (mkStorage "sync" false [] false false [] [])
        "k" 3).isOk = true)
    ∧ ((setMany (fun (_ : Nat) => "") (mkStorage "sync" false [] false false [] [])
        [("b", 4)]).isOk = true)
    ∧ ((remove (mkStorage "sync" false [] false false [] []) "k").isOk = true)
    ∧ ((removeMany (mkStorage "sync" false [] false false [] []) ["a"]).isOk = true)
    ∧ (copy (mkStorage "sync" false [] false false [] []) none
        = Except.ok (false, mkStorage "sync" false [] false false [] []))
    ∧ (watch (mkStorage "sync" false [] false false [] []).hasExtensionApi ""
        WatchState.init [] = (false, WatchState.init))
    ∧ (unwatch (mkStorage "sync" false [] false false [] []).hasExtensionApi ""
        WatchState.init [] = (false, WatchState.init)) :=
  c7_no_extension_fallback (fun _ => (none : Option Nat)) (fun _ => "")
    (mkStorage "sync" false [] false false [] []) rfl "" WatchState.init
    "k" ["a"] 3 [("b", 4)] none []

/-- Claim C8 (code evaluated at the failing input): on an instance with
`allCopied = false` and the explicit allow-list ["k"], with the extension
API available and a value stored under "k" in the primary backend, both
`copy("k")` and `copy()` return false and leave the whole state — the
secondary backend included — untouched.  The `|| !this.allCopied`
disjunct of the early-return guard (src/src/index.ts line 169) makes the
allow-list branch of `copy` unreachable, contradicting the allow-list
fetch code inside `copy` itself and its doc comment. -/
theorem c8_copy_allowlist_unreachable :
    (copy (mkStorage "sync" false ["k"] true true [] [("k", "v")]) (some "k")
      = Except.ok (false, mkStorage "sync" false ["k"] true true [] [("k", "v")]))
    ∧ (copy (mkStorage "sync" false ["k"] true true [] [("k", "v")]) none
      = Except.ok (false, mkStorage "sync" false ["k"] true true [] [("k", "v")])) := by
  constructor <;> rfl

/-- `rawSetMany` on a single item, on a store whose extension API is
available: the item lands in the primary backend; the secondary client
becomes some configuration-dependent value `sec`. -/
theorem rawSetMany_single (s : StorageState) (key value : String) (p : StrMap)
    (hext : s.hasExtensionApi = true) (hp : s.primaryClient = some p) :
    ∃ sec, rawSetMany s [(key, value)] = Except.ok
      { s with secondaryClient := sec, primaryClient := some (aInsert p key value) } := by
  cases hsec : s.secondaryClient with
  | none =>
    refine ⟨none, ?_⟩
    simp only [rawSetMany, hsec, hext, hp, jsField, List.foldl_cons, List.foldl_nil, if_true]
    rw [← hsec]
    rfl
  | some m =>
    refine ⟨some (([(key, value)].filter fun q => isCopied s q.1).foldl
      (fun acc q => aInsert acc q.1 q.2) m), ?_⟩
    simp only [rawSetMany, hsec, hext, hp, jsField, List.foldl_cons, List.foldl_nil, if_true]
    rfl

/-- `rawRemoveMany` on a single key, with the extension API available. -/
theorem rawRemoveMany_single (s : StorageState) (key : String) (p : StrMap)
    (hext : s.hasExtensionApi = true) (hp : s.primaryClient = some p) :
    ∃ sec, rawRemoveMany s [key] = Except.ok
      { s with secondaryClient := sec, primaryClient := some (aErase p key) } := by
  cases hsec : s.secondaryClient with
  | none =>
    refine ⟨none, ?_⟩
    simp only [rawRemoveMany, hsec, hext, hp, jsField, List.foldl_cons, List.foldl_nil, if_true]
    rw [← hsec]
    rfl
  | some m =>
    refine ⟨some (([key].filter (isCopied s)).foldl aErase m), ?_⟩
    simp only [rawRemoveMany, hsec, hext, hp, jsField, List.foldl_cons, List.foldl_nil, if_true]
    rfl

/-- Claim C9: `set(key, v)` followed by `get(key)` on the same store
instance returns the original value, for any pluggable
serializer/deserializer pair that round-trips (the default
`JSON.stringify`/`JSON.parse` pair round-trips up to deep equality on
JSON-representable values; the codec is an external collaborator).  The
instance is any store whose extension API is available. -/
theorem c9_set_get_roundtrip {V : Type} (serializer : V → String)
    (deserializer : String → Option V)
    (hround : ∀ w, deserializer (serializer w) = some w)
    (s s' : StorageState) (p : StrMap) (key : String) (v : V)
    (hext : s.hasExtensionApi = true) (hp : s.primaryClient = some p)
    (hset : set serializer s key v = Except.ok s') :
    get deserializer s' key = Except.ok (some v) := by
  obtain ⟨sec, hraw⟩ :=
    rawSetMany_single s (getNamespacedKey s key) (serializer v) p hext hp
  rw [set, rawSet, hraw] at hset
  cases hset
  simp [get, rawGet, rawGetMany, getNamespacedKey, jsField, parseValue, hext,
    aFind?_aInsert_self, aFind?, hround, Bind.bind, Except.bind]

theorem c9_set_get_roundtrip_witness :
    get (fun str => some str)
      { mkStorage "sync" false [] false true [] [] with
        primaryClient := some [("key", "hello")] } "key"
      = Except.ok (some "hello") :=
  c9_set_get_roundtrip (fun str => str) (fun str => some str) (fun _ => rfl)
    (mkStorage "sync" false [] false true [] [])
    ({ mkStorage "sync" false [] false true [] [] with
        primaryClient := some [("key", "hello")] })
    [] "key" "hello" rfl rfl rfl

theorem ns_append_ne (ns k : String) (h : ns ≠ "") : ns ++ k ≠ k := by
  intro he
  have hl := congrArg String.length he
  rw [String.length_append] at hl
  have h0 : ns.length = 0 := by omega
  exact h (String.ext (List.length_eq_zero.mp h0))

/-- Claim C10: on a `SecureStorage` with a non-empty key namespace, `set`
stores the envelope under the RAW key and `get` reads the RAW key back,
while the inherited `remove` targets the NAMESPACED key and `watch`
installs its listener under the NAMESPACED key; consequently
`set(key, v)` followed by `remove(key)` leaves the entry written by `set`
present in the primary backend. -/
theorem c10_secure_namespace_mismatch {V : Type} (cfg : SecureCfg V) (s s' : SecureState)
    (p : StrMap) (key : String) (v : V) (salt iv : List Nat)
    (hns : s.base.keyNamespace ≠ "")
    (hext : s.base.hasExtensionApi = true) (hp : s.base.primaryClient = some p)
    (hset : secureSet cfg s key v salt iv = Except.ok s') :
    ∃ box : String,
      ((s'.base.primaryClient.bind fun q => aFind? q key) = some box)
      ∧ (secureGet cfg s' key = Except.ok (secureParseValue cfg s' (some box)))
      ∧ (∀ s'', secureRemove s' key = Except.ok s'' →
          (s''.base.primaryClient.bind fun q => aFind? q key) = some box)
      ∧ (∀ cb, aFind? (watch true s.base.keyNamespace WatchState.init
            [(key, cb)]).2.watchMap (s.base.keyNamespace ++ key) = some ⟨[cb], 0⟩
          ∧ aFind? (watch true s.base.keyNamespace WatchState.init
            [(key, cb)]).2.watchMap key = none) := by
  have hne : s.base.keyNamespace ++ key ≠ key := ns_append_ne _ _ hns
  cases henc : secureEncrypt cfg s (cfg.stringifyBytes v) salt iv with
  | error e => simp [secureSet, henc, Bind.bind, Except.bind] at hset
  | ok box =>
    obtain ⟨sec, hraw⟩ := rawSetMany_single s.base key box p hext hp
    have hs' : s' = { s with base := { s.base with
        secondaryClient := sec, primaryClient := some (aInsert p key box) } } := by
      rw [secureSet] at hset
      simp only [henc, Bind.bind, Except.bind, rawSet, hraw] at hset
      cases hset
      rfl
    subst hs'
    refine ⟨box, ?_, ?_, ?_, ?_⟩
    · simp [aFind?_aInsert_self]
    · simp [secureGet, rawGet, rawGetMany, jsField, hext, aFind?, aFind?_aInsert_self,
        Bind.bind, Except.bind]
    · intro s'' hrem
      obtain ⟨sec2, hraw2⟩ := rawRemoveMany_single
        { s.base with secondaryClient := sec, primaryClient := some (aInsert p key box) }
        (s.base.keyNamespace ++ key) (aInsert p key box) (by simpa using hext) rfl
      rw [secureRemove] at hrem
      simp only [remove, rawRemove, getNamespacedKey] at hrem
      simp only [hraw2, Bind.bind, Except.bind] at hrem
      cases hrem
      simp [aFind?_aErase_ne _ _ _ (Ne.symm hne), aFind?_aInsert_self]
    · intro cb
      constructor
      · simp [watch, addListenerStep, aFind?, aInsert, WatchState.init]
      · simp [watch, addListenerStep, aFind?, aInsert, hne, WatchState.init]

/-- A `SecureStorage` with password set, zero salt/IV sizes (so that the
envelope assembly succeeds despite the off-by-`ivSize` write offset), and
the non-empty namespace "ns:". -/
def c10State : SecureState :=
  { base := { mkStorage "sync" false [] false true [] [] with keyNamespace := "ns:" }
    passwordKey := some 1
    iterations := 1
    saltSize := 0
    ivSize := 0 }

def c10StateAfter : SecureState :=
  { c10State with base := { c10State.base with primaryClient := some [("k", "[5]")] } }

theorem c10_secure_namespace_mismatch_witness :
    ∃ box : String,
      ((c10StateAfter.base.primaryClient.bind fun q => aFind? q "k") = some box)
      ∧ (secureGet testCfg c10StateAfter "k"
          = Except.ok (secureParseValue testCfg c10StateAfter (some box)))
      ∧ (∀ s'', secureRemove c10StateAfter "k" = Except.ok s'' →
          (s''.base.primaryClient.bind fun q => aFind? q "k") = some box)
      ∧ (∀ cb, aFind? (watch true c10State.base.keyNamespace WatchState.init
            [("k", cb)]).2.watchMap (c10State.base.keyNamespace ++ "k") = some ⟨[cb], 0⟩
          ∧ aFind? (watch true c10State.base.keyNamespace WatchState.init
            [("k", cb)]).2.watchMap "k" = none) :=
  c10_secure_namespace_mismatch testCfg c10State c10StateAfter [] "k" 5 [] []
    (by decide) rfl rfl rfl

end PlasmoStorage
